import Mathlib

set_option maxHeartbeats 1000000

namespace EquipPortal

/-! ## JSON values as exchanged with the remote API

The client passes API entities through as parsed JSON records.  We model the
parsed values with a small inductive mirroring the JSON data model (numbers as
integers: the payloads in play are ids, quantities and counts). -/

inductive Json where
  | null : Json
  | bool (b : Bool) : Json
  | num (n : Int) : Json
  | str (s : String) : Json
  | arr (elems : List Json) : Json
  | obj (fields : List (String × Json)) : Json

mutual

/-- JavaScript string conversion, as performed by `new Error(x)` and template
literals: `String(null) = "null"`, booleans and numbers print, arrays join
their elements with a comma (null elements become empty), objects print as
`[object Object]`. -/
def jsToString : Json → String
  | .null => "null"
  | .bool true => "true"
  | .bool false => "false"
  | .num n => toString n
  | .str s => s
  | .arr xs => jsArrToString xs
  | .obj _ => "[object Object]"

def jsArrToString : List Json → String
  | [] => ""
  | [Json.null] => ""
  | [x] => jsToString x
  | Json.null :: xs => "," ++ jsArrToString xs
  | x :: xs => jsToString x ++ "," ++ jsArrToString xs

end

/-- JavaScript truthiness: `null`, `false`, `0` and the empty string are falsy;
every array and object is truthy. -/
def truthy : Json → Bool
  | .null => false
  | .bool b => b
  | .num n => n != 0
  | .str s => s != ""
  | .arr _ => true
  | .obj _ => true

/-- Property access `j.k` on a parsed JSON value: a field lookup on an object,
`undefined` (here `none`) on anything else. -/
def getField (j : Json) (k : String) : Option Json :=
  match j with
  | .obj fields => fields.lookup k
  | _ => none

/-! ## The authenticated transport wrapper `apiFetch` -/

/-- An HTTP response as seen by the wrapper: the status code and the parsed
JSON body; `none` stands for a body that is not valid JSON, on which
`response.json()` rejects. -/
structure Response where
  status : Nat
  body : Option Json

/-- `response.ok`: status in the inclusive range 200 to 299. -/
def responseOk (r : Response) : Bool :=
  200 ≤ r.status && r.status ≤ 299

/-- The generic fallback message of `apiFetch`. -/
def genericApiError : String := "An API error occurred"

/-- The message thrown on a non-2xx response: `errorData.detail` when that
field is truthy under JavaScript rules, else the generic fallback (this is
the semantics of `errorData.detail || 'An API error occurred'`). -/
def errorDetailMessage (body : Json) : String :=
  match getField body "detail" with
  | some d => if truthy d then jsToString d else genericApiError
  | none => genericApiError

/-- The message with which `response.json()` itself rejects when the body is
not valid JSON. -/
def jsonSyntaxError : String := "SyntaxError: unexpected end of JSON input"

/-- The result of `apiFetch` as a function of the response it receives:
on non-2xx, parse the body and throw the detail-derived message; on 204,
resolve to `null` without touching the body; on any other 2xx, resolve to the
parsed body. -/
def apiFetch (r : Response) : Except String (Option Json) :=
  if responseOk r then
    if r.status == 204 then
      Except.ok none
    else
      match r.body with
      | some j => Except.ok (some j)
      | none => Except.error jsonSyntaxError
  else
    match r.body with
    | some j => Except.error (errorDetailMessage j)
    | none => Except.error jsonSyntaxError

/-! ## Calendar dates and the 5-day return-date policy of `requestItem`

`requestItem` computes `borrowDate` from `new Date()` and the return date by
`today.setDate(today.getDate() + 5)`, both serialized with
`toISOString().split('T')[0]`.  We model the calendar date the code reads off
the clock and the proleptic-Gregorian day arithmetic the Date library applies:
`setDate(getDate() + n)` sets the day-of-month to `getDate() + n` and lets the
library normalize overflow into the following months. -/

structure Date where
  year : Nat
  month : Nat
  day : Nat
deriving Repr, DecidableEq

/-- Gregorian leap-year rule, as implemented by the JavaScript Date library. -/
def isLeapYear (y : Nat) : Bool :=
  (y % 4 == 0 && y % 100 != 0) || y % 400 == 0

/-- Length of month `m` in a leap (`true`) or common (`false`) year. -/
def daysInMonthOf (leap : Bool) (m : Nat) : Nat :=
  if m = 2 then (if leap then 29 else 28)
  else if m = 4 ∨ m = 6 ∨ m = 9 ∨ m = 11 then 30
  else 31

/-- Length of month `m` of year `y`. -/
def daysInMonth (y m : Nat) : Nat :=
  daysInMonthOf (isLeapYear y) m

/-- A calendar date the client can read off the clock: month in 1..12, day in
range for that month. -/
def ValidDate (dt : Date) : Prop :=
  1 ≤ dt.month ∧ dt.month ≤ 12 ∧ 1 ≤ dt.day ∧ dt.day ≤ daysInMonth dt.year dt.month

instance (dt : Date) : Decidable (ValidDate dt) := by
  unfold ValidDate
  exact inferInstance

/-- `today.setDate(today.getDate() + 5)` on an in-range date: the Date library
normalizes a day-of-month past the end of the month into the next month,
rolling the year over past December. -/
def addDays5 (dt : Date) : Date :=
  if dt.day + 5 ≤ daysInMonth dt.year dt.month then
    { year := dt.year, month := dt.month, day := dt.day + 5 }
  else if dt.month = 12 then
    { year := dt.year + 1, month := 1, day := dt.day + 5 - daysInMonth dt.year 12 }
  else
    { year := dt.year, month := dt.month + 1, day := dt.day + 5 - daysInMonth dt.year dt.month }

/-! ### A day-count yardstick to state rollover correctness against -/

/-- Days in year `y`. -/
def daysInYear (y : Nat) : Nat :=
  if isLeapYear y then 366 else 365

/-- Days in all years before year `y`. -/
def daysBeforeYear : Nat → Nat
  | 0 => 0
  | y + 1 => daysBeforeYear y + daysInYear y

/-- Days in the months of a year strictly before month `m` (leap flag given). -/
def daysBeforeMonthOf (leap : Bool) : Nat → Nat
  | 0 => 0
  | m + 1 => daysBeforeMonthOf leap m + (if m = 0 then 0 else daysInMonthOf leap m)

/-- Days in the months of year `y` strictly before month `m`. -/
def daysBeforeMonth (y m : Nat) : Nat :=
  daysBeforeMonthOf (isLeapYear y) m

/-- Linear day number of a date: the yardstick against which calendar
arithmetic is judged.  Two valid dates are `n` calendar days apart exactly
when their day numbers differ by `n`. -/
def dayNumber (dt : Date) : Nat :=
  daysBeforeYear dt.year + daysBeforeMonth dt.year dt.month + dt.day

theorem daysInMonthOf_ge (leap : Bool) (m : Nat) : 28 ≤ daysInMonthOf leap m := by
  unfold daysInMonthOf
  split
  · split <;> omega
  · split <;> omega

theorem daysBeforeMonthOf_succ (leap : Bool) (m : Nat) (h : 1 ≤ m) :
    daysBeforeMonthOf leap (m + 1) = daysBeforeMonthOf leap m + daysInMonthOf leap m := by
  cases m with
  | zero => omega
  | succ k => simp [daysBeforeMonthOf]

theorem daysBeforeMonthOf_13 (leap : Bool) :
    daysBeforeMonthOf leap 13 = (if leap then 366 else 365) := by
  cases leap <;> decide

/-- Calendar correctness of the Date library's `setDate` normalization: on a
valid date, adding 5 to the day-of-month and normalizing advances the linear
day number by exactly 5, and lands on a valid date. -/
theorem addDays5_correct (dt : Date) (h : ValidDate dt) :
    dayNumber (addDays5 dt) = dayNumber dt + 5 ∧ ValidDate (addDays5 dt) := by
  obtain ⟨hm1, hm12, hd1, hdM⟩ := h
  unfold daysInMonth at hdM
  have f28c : 28 ≤ daysInMonthOf (isLeapYear dt.year) dt.month := daysInMonthOf_ge _ _
  have f28n : 28 ≤ daysInMonthOf (isLeapYear dt.year) (dt.month + 1) := daysInMonthOf_ge _ _
  have f12 : daysInMonthOf (isLeapYear dt.year) 12 = 31 := by
    cases isLeapYear dt.year <;> rfl
  have f1 : daysInMonthOf (isLeapYear (dt.year + 1)) 1 = 31 := by
    cases isLeapYear (dt.year + 1) <;> rfl
  have f01 : daysBeforeMonthOf (isLeapYear (dt.year + 1)) 1 = 0 := by
    cases isLeapYear (dt.year + 1) <;> rfl
  have f13 : daysBeforeMonthOf (isLeapYear dt.year) 13 =
      daysBeforeMonthOf (isLeapYear dt.year) 12 + 31 := by
    rw [daysBeforeMonthOf_succ _ 12 (by omega), f12]
  have fyr : daysInYear dt.year = daysBeforeMonthOf (isLeapYear dt.year) 13 := by
    cases hb : isLeapYear dt.year <;> simp [daysInYear, hb, daysBeforeMonthOf_13]
  have fby : daysBeforeYear (dt.year + 1) = daysBeforeYear dt.year + daysInYear dt.year := rfl
  unfold addDays5 daysInMonth
  by_cases hle : dt.day + 5 ≤ daysInMonthOf (isLeapYear dt.year) dt.month
  · rw [if_pos hle]
    simp only [dayNumber, ValidDate, daysBeforeMonth, daysInMonth]
    omega
  · rw [if_neg hle]
    by_cases h12 : dt.month = 12
    · rw [if_pos h12]
      have hA : daysInMonthOf (isLeapYear dt.year) dt.month =
          daysInMonthOf (isLeapYear dt.year) 12 := by rw [h12]
      simp only [dayNumber, ValidDate, daysBeforeMonth, daysInMonth]
      rw [h12, fby]
      omega
    · rw [if_neg h12]
      have fsucc := daysBeforeMonthOf_succ (isLeapYear dt.year) dt.month hm1
      simp only [dayNumber, ValidDate, daysBeforeMonth, daysInMonth]
      omega

/-! ### The request body built by `requestItem` -/

/-- Zero-padding to `n` digits, as `toISOString` prints date components. -/
def padNum (n : Nat) (v : Nat) : String :=
  let s := toString v
  if s.length < n then String.mk (List.replicate (n - s.length) '0') ++ s else s

/-- The date part of `toISOString()`: `YYYY-MM-DD`. -/
def isoDate (dt : Date) : String :=
  padNum 4 dt.year ++ "-" ++ padNum 2 dt.month ++ "-" ++ padNum 2 dt.day

/-- The JSON body `requestItem` submits to `POST /requests/`: the equipment
id, `borrow_date` serialized from today, `expected_return_date` serialized
from today advanced 5 days by `setDate`. -/
def requestItemJsonBody (equipmentId : Int) (today : Date) : Json :=
  Json.obj [("equipment_id", Json.num equipmentId),
            ("borrow_date", Json.str (isoDate today)),
            ("expected_return_date", Json.str (isoDate (addDays5 today)))]

/-! ## API entities

Records passed through from the remote API, accessed only by field. -/

structure Equipment where
  equipment_id : Int
  name : String
  category : String
  available_quantity : Int
  total_quantity : Int
  status : String
deriving Repr, DecidableEq

structure Req where
  request_id : Int
  user_id : Int
  equipment_id : Int
  status : String
  expected_return_date : String
deriving Repr, DecidableEq

structure Repair where
  repair_id : Int
  equipment_id : Int
  description : String
  repair_status : String
deriving Repr, DecidableEq

structure AnalyticsRow where
  equipment_id : Int
  name : String
  request_count : Int
deriving Repr, DecidableEq

/-! ## DOM state touched by the client

The fixed containers the script writes to: the three page containers and the
logout button (display toggles), the table bodies (markup strings), and the
shared global message area. -/

structure DomState where
  authVisible : Bool
  studentVisible : Bool
  adminVisible : Bool
  logoutVisible : Bool
  equipTbody : String
  myRequestsTbody : String
  adminPendingTbody : String
  adminInventoryTbody : String
  overdueTbody : String
  repairsTbody : String
  analyticsTbody : String
  message : String
  messageClass : String
deriving Repr, DecidableEq

/-- `showMessage(message, type)`: set the global message text and class. -/
def showMessage (msg ty : String) (dom : DomState) : DomState :=
  { dom with message := msg, messageClass := ty }

/-- The three page containers of the view router. -/
inductive Page where
  | auth : Page
  | student : Page
  | admin : Page
deriving Repr, DecidableEq

/-- The element id of each page container, as passed to `showPage`. -/
def pageElemId : Page → String
  | .auth => "auth-container"
  | .student => "student-dashboard"
  | .admin => "admin-dashboard"

/-- `hideAllPages()`: hide the three page containers and the logout button. -/
def hideAllPages (dom : DomState) : DomState :=
  { dom with authVisible := false, studentVisible := false, adminVisible := false,
             logoutVisible := false }

/-- Set the display of the container with id `pageElemId p` to block. -/
def setPageVisible (p : Page) (dom : DomState) : DomState :=
  match p with
  | .auth => { dom with authVisible := true }
  | .student => { dom with studentVisible := true }
  | .admin => { dom with adminVisible := true }

/-- `showPage(pageId)`: hide everything, show the requested container, and
show the logout button unless the requested container is the auth one. -/
def showPage (p : Page) (dom : DomState) : DomState :=
  let dom1 := setPageVisible p (hideAllPages dom)
  if pageElemId p ≠ "auth-container" then { dom1 with logoutVisible := true } else dom1

/-! ## Row templates

The template literals each list renderer appends per entity, with the inline
whitespace of the source linearized.  Rendering always starts from
`tbody.innerHTML = ''`, so the rebuilt markup is a pure function of the
fetched list. -/

/-- The disabled attribute of the per-row Request button:
`item.available_quantity <= 0 || item.status !== 'available' ? 'disabled' : ''`. -/
def requestButtonDisabledAttr (item : Equipment) : String :=
  if item.available_quantity ≤ 0 || item.status != "available" then "disabled" else ""

/-- One row of the student equipment table. -/
def equipmentRow (item : Equipment) : String :=
  "<tr><td>" ++ item.name ++ "</td><td>" ++ item.category ++ "</td><td>" ++
    toString item.available_quantity ++ "</td><td>" ++ item.status ++
    "</td><td><button class=\"btn\" onclick=\"requestItem(" ++
    toString item.equipment_id ++ ")\" " ++ requestButtonDisabledAttr item ++
    ">Request</button></td></tr>"

/-- The student equipment table body: a placeholder row on an empty list,
otherwise one row per item. -/
def renderEquipmentList (equipment : List Equipment) : String :=
  if equipment.length = 0 then "<tr><td colspan=\"5\">No equipment available.</td></tr>"
  else String.join (equipment.map equipmentRow)

/-- One row of the student requests table: a Return button on approved
requests, a Report Damage button on non-returned ones. -/
def myRequestRow (req : Req) : String :=
  "<tr><td>" ++ toString req.request_id ++ "</td><td>" ++ toString req.equipment_id ++
    "</td><td>" ++ req.status ++ "</td><td>" ++ req.expected_return_date ++ "</td><td>" ++
    (if req.status == "approved" then
      "<button class=\"btn btn-success\" onclick=\"returnItem(" ++
        toString req.request_id ++ ")\">Return</button>"
     else "") ++
    (if req.status != "returned" then
      "<button class=\"btn btn-danger\" onclick=\"reportDamage(" ++
        toString req.equipment_id ++ ")\">Report Damage</button>"
     else "") ++
    "</td></tr>"

/-- The student requests table body. -/
def renderMyRequests (requests : List Req) : String :=
  if requests.length = 0 then "<tr><td colspan=\"5\">You have no requests.</td></tr>"
  else String.join (requests.map myRequestRow)

/-- One row of the admin pending-requests table, with its editable return-date
input pre-filled with the server's suggested date. -/
def pendingRow (req : Req) : String :=
  "<tr><td>" ++ toString req.request_id ++ "</td><td>" ++ toString req.user_id ++
    "</td><td>" ++ toString req.equipment_id ++ "</td><td>" ++ req.expected_return_date ++
    "</td><td><input type=\"date\" class=\"form-input\" id=\"return-date-" ++
    toString req.request_id ++ "\" value=\"" ++ req.expected_return_date ++
    "\"></td><td><button class=\"btn btn-success\" onclick=\"adminApprove(" ++
    toString req.request_id ++ ")\">Approve</button>" ++
    "<button class=\"btn btn-danger\" onclick=\"adminReject(" ++
    toString req.request_id ++ ")\">Reject</button></td></tr>"

/-- The admin pending-requests table body. -/
def renderPending (requests : List Req) : String :=
  if requests.length = 0 then "<tr><td colspan=\"6\">No pending requests.</td></tr>"
  else String.join (requests.map pendingRow)

/-- One row of the admin inventory table. -/
def inventoryRow (item : Equipment) : String :=
  "<tr><td>" ++ toString item.equipment_id ++ "</td><td>" ++ item.name ++ "</td><td>" ++
    toString item.available_quantity ++ " / " ++ toString item.total_quantity ++
    "</td><td>" ++ item.status ++
    "</td><td><button class=\"btn btn-danger\" onclick=\"adminDeleteItem(" ++
    toString item.equipment_id ++ ")\">Delete</button></td></tr>"

/-- The admin inventory table body (the source has no empty-list placeholder
here: an empty fetch leaves the body empty). -/
def renderInventory (equipment : List Equipment) : String :=
  String.join (equipment.map inventoryRow)

/-- One row of the overdue report. -/
def overdueRow (req : Req) : String :=
  "<tr><td>" ++ toString req.request_id ++ "</td><td>" ++ toString req.user_id ++
    "</td><td>" ++ toString req.equipment_id ++ "</td><td>" ++ req.status ++ "</td></tr>"

/-- The overdue report table body. -/
def renderOverdue (requests : List Req) : String :=
  String.join (requests.map overdueRow)

/-- One row of the repairs report: a Complete button on pending repairs. -/
def repairRow (item : Repair) : String :=
  "<tr><td>" ++ toString item.repair_id ++ "</td><td>" ++ toString item.equipment_id ++
    "</td><td>" ++ item.description ++ "</td><td>" ++ item.repair_status ++ "</td><td>" ++
    (if item.repair_status == "pending" then
      "<button class=\"btn\" onclick=\"adminCompleteRepair(" ++
        toString item.repair_id ++ ")\">Complete</button>"
     else "") ++
    "</td></tr>"

/-- The repairs report table body. -/
def renderRepairs (repairs : List Repair) : String :=
  String.join (repairs.map repairRow)

/-- One row of the usage-analytics report. -/
def analyticsRow (item : AnalyticsRow) : String :=
  "<tr><td>" ++ toString item.equipment_id ++ "</td><td>" ++ item.name ++ "</td><td>" ++
    toString item.request_count ++ "</td></tr>"

/-- The usage-analytics table body. -/
def renderAnalytics (rows : List AnalyticsRow) : String :=
  String.join (rows.map analyticsRow)

/-! ## Application state and the action transitions

Module-level state of the script (`token`, `userRole`), the durable storage
key, and the DOM.  Each event handler becomes a transition returning the new
state together with the list of HTTP requests it issued, in order.  The
responses the handler would receive are supplied by an environment. -/

structure AppState where
  token : Option String
  userRole : Option String
  storedToken : Option String
  dom : DomState
deriving Repr, DecidableEq

/-- The value interpolated into the Authorization header: a template literal
stringifies a null credential to the text `null`. -/
def bearerOf : Option String → String
  | none => "Bearer null"
  | some t => "Bearer " ++ t

/-- One outgoing HTTP request.  `authHeader` is the Authorization header when
the request goes through `apiFetch` (`none` for the raw login/register
fetches, which attach no Authorization header); `body` is the JSON payload
(the form-encoded login payload is not modeled). -/
structure ApiCall where
  endpoint : String
  method : String
  authHeader : Option String
  body : Option Json

/-- The request `apiFetch` builds: the Authorization header always reads the
module-level credential. -/
def mkCall (tok : Option String) (endpoint method : String) (body : Option Json) : ApiCall :=
  { endpoint := endpoint, method := method, authHeader := some (bearerOf tok), body := body }

/-- The environment a handler runs against: the outcome of each endpoint it
may hit (an `Except.error` carries the message `apiFetch` would throw) and
the DOM input values it may read. -/
structure Env where
  usersMe : Except String String
  equipmentList : Except String (List Equipment)
  myRequests : Except String (List Req)
  pendingRequests : Except String (List Req)
  overdueList : Except String (List Req)
  repairsList : Except String (List Repair)
  analyticsList : Except String (List AnalyticsRow)
  checkOverdueList : Except String (List Req)
  mutate : String → Except String Unit
  tokenResponse : Except String String
  registerResponse : Except String Unit
  returnDateInput : Int → String

/-- `loadStudentEquipment`: fetch `/equipment/`, clear and rebuild the
equipment table; on error only show the message. -/
def loadStudentEquipment (env : Env) (s : AppState) : AppState × List ApiCall :=
  let call := mkCall s.token "/equipment/" "GET" none
  match env.equipmentList with
  | .ok items =>
      ({ s with dom := { s.dom with equipTbody := renderEquipmentList items } }, [call])
  | .error msg =>
      ({ s with dom := showMessage msg "error" s.dom }, [call])

/-- `loadStudentRequests`: fetch `/requests/my/`, clear and rebuild the
requests table; on error only show the message. -/
def loadStudentRequests (env : Env) (s : AppState) : AppState × List ApiCall :=
  let call := mkCall s.token "/requests/my/" "GET" none
  match env.myRequests with
  | .ok reqs =>
      ({ s with dom := { s.dom with myRequestsTbody := renderMyRequests reqs } }, [call])
  | .error msg =>
      ({ s with dom := showMessage msg "error" s.dom }, [call])

/-- `loadStudentData`: refresh both student lists. -/
def loadStudentData (env : Env) (s : AppState) : AppState × List ApiCall :=
  let p1 := loadStudentEquipment env s
  let p2 := loadStudentRequests env p1.1
  (p2.1, p1.2 ++ p2.2)

/-- `loadAdminPending`: fetch `/requests/pending/`, rebuild the pending
table. -/
def loadAdminPending (env : Env) (s : AppState) : AppState × List ApiCall :=
  let call := mkCall s.token "/requests/pending/" "GET" none
  match env.pendingRequests with
  | .ok reqs =>
      ({ s with dom := { s.dom with adminPendingTbody := renderPending reqs } }, [call])
  | .error msg =>
      ({ s with dom := showMessage msg "error" s.dom }, [call])

/-- `loadAdminInventory`: fetch `/equipment/`, rebuild the inventory table. -/
def loadAdminInventory (env : Env) (s : AppState) : AppState × List ApiCall :=
  let call := mkCall s.token "/equipment/" "GET" none
  match env.equipmentList with
  | .ok items =>
      ({ s with dom := { s.dom with adminInventoryTbody := renderInventory items } }, [call])
  | .error msg =>
      ({ s with dom := showMessage msg "error" s.dom }, [call])

/-- `Promise.all` over the three report fetches: all succeed, or the combined
promise rejects with a failing fetch's message (left priority picks the
first-listed failure; which failure wins is timing-dependent in the source,
but whether any fails is not). -/
def promiseAll3 {α β γ : Type} (a : Except String α) (b : Except String β)
    (c : Except String γ) : Except String (α × β × γ) :=
  match a, b, c with
  | .ok x, .ok y, .ok z => .ok (x, y, z)
  | .error m, _, _ => .error m
  | .ok _, .error m, _ => .error m
  | .ok _, .ok _, .error m => .error m

/-- `loadAdminReports`: start the three report fetches together, await their
combination, and render all three tables; one combined catch shows the
message and renders nothing. -/
def loadAdminReports (env : Env) (s : AppState) : AppState × List ApiCall :=
  let calls := [mkCall s.token "/requests/overdue/" "GET" none,
                mkCall s.token "/repairs/" "GET" none,
                mkCall s.token "/analytics/usage" "GET" none]
  match promiseAll3 env.overdueList env.repairsList env.analyticsList with
  | .ok (overdue, repairs, analytics) =>
      ({ s with dom := { s.dom with
          overdueTbody := renderOverdue overdue,
          repairsTbody := renderRepairs repairs,
          analyticsTbody := renderAnalytics analytics } }, calls)
  | .error msg =>
      ({ s with dom := showMessage msg "error" s.dom }, calls)

/-- `loadAdminData`: refresh all three admin tabs at once. -/
def loadAdminData (env : Env) (s : AppState) : AppState × List ApiCall :=
  let p1 := loadAdminPending env s
  let p2 := loadAdminInventory env p1.1
  let p3 := loadAdminReports env p2.1
  (p3.1, p1.2 ++ p2.2 ++ p3.2)

/-- `loadUserDashboard`: fetch the role, branch to the matching dashboard and
kick off its loads; on any error show the message, clear the credential from
the module variable and storage, and force the login screen. -/
def loadUserDashboard (env : Env) (s : AppState) : AppState × List ApiCall :=
  let call := mkCall s.token "/users/me/" "GET" none
  match env.usersMe with
  | .ok role =>
      let s1 := { s with userRole := some role }
      if role == "admin" then
        let dom2 := showMessage "Login successful!" "success" (showPage .admin s1.dom)
        let p := loadAdminData env { s1 with dom := dom2 }
        (p.1, call :: p.2)
      else
        let dom2 := showMessage "Login successful!" "success" (showPage .student s1.dom)
        let p := loadStudentData env { s1 with dom := dom2 }
        (p.1, call :: p.2)
  | .error msg =>
      ({ s with token := none, storedToken := none,
                dom := showPage .auth (showMessage msg "error" s.dom) }, [call])

/-- `requestItem`: submit the 5-day borrow request, then refresh both student
lists; on error only show the message. -/
def requestItem (env : Env) (equipmentId : Int) (today : Date) (s : AppState) :
    AppState × List ApiCall :=
  let call := mkCall s.token "/requests/" "POST" (some (requestItemJsonBody equipmentId today))
  match env.mutate "/requests/" with
  | .ok _ =>
      let s1 := { s with dom := showMessage "Request submitted successfully!" "success" s.dom }
      let p := loadStudentData env s1
      (p.1, call :: p.2)
  | .error msg => ({ s with dom := showMessage msg "error" s.dom }, [call])

/-- `returnItem`: post the return, then refresh both student lists. -/
def returnItem (env : Env) (requestId : Int) (s : AppState) : AppState × List ApiCall :=
  let call := mkCall s.token ("/requests/" ++ toString requestId ++ "/return") "POST" none
  match env.mutate ("/requests/" ++ toString requestId ++ "/return") with
  | .ok _ =>
      let s1 := { s with dom := showMessage "Item returned successfully!" "success" s.dom }
      let p := loadStudentData env s1
      (p.1, call :: p.2)
  | .error msg => ({ s with dom := showMessage msg "error" s.dom }, [call])

/-- `reportDamage`: a cancelled or empty prompt silently aborts; otherwise
post the damage report and refresh both student lists. -/
def reportDamage (env : Env) (equipmentId : Int) (desc : Option String) (s : AppState) :
    AppState × List ApiCall :=
  match desc with
  | none => (s, [])
  | some d =>
    if d = "" then (s, [])
    else
      let call := mkCall s.token ("/equipment/" ++ toString equipmentId ++ "/report-damage")
        "POST" (some (Json.obj [("equipment_id", Json.num equipmentId),
                                ("description", Json.str d)]))
      match env.mutate ("/equipment/" ++ toString equipmentId ++ "/report-damage") with
      | .ok _ =>
          let s1 := { s with dom := showMessage "Damage reported. Thank you." "success" s.dom }
          let p := loadStudentData env s1
          (p.1, call :: p.2)
      | .error msg => ({ s with dom := showMessage msg "error" s.dom }, [call])

/-- `adminApprove`: an empty return-date input blocks with a local message and
no request; otherwise post the approval carrying the chosen date, then
refresh the pending list. -/
def adminApprove (env : Env) (requestId : Int) (s : AppState) : AppState × List ApiCall :=
  let returnDate := env.returnDateInput requestId
  if returnDate = "" then
    ({ s with dom := showMessage "Please set a return date." "error" s.dom }, [])
  else
    let call := mkCall s.token ("/requests/" ++ toString requestId ++ "/approve") "POST"
      (some (Json.obj [("expected_return_date", Json.str returnDate)]))
    match env.mutate ("/requests/" ++ toString requestId ++ "/approve") with
    | .ok _ =>
        let s1 := { s with dom := showMessage "Request approved." "success" s.dom }
        let p := loadAdminPending env s1
        (p.1, call :: p.2)
    | .error msg => ({ s with dom := showMessage msg "error" s.dom }, [call])

/-- `adminReject`: post the rejection, then refresh the pending list. -/
def adminReject (env : Env) (requestId : Int) (s : AppState) : AppState × List ApiCall :=
  let call := mkCall s.token ("/requests/" ++ toString requestId ++ "/reject") "POST" none
  match env.mutate ("/requests/" ++ toString requestId ++ "/reject") with
  | .ok _ =>
      let s1 := { s with dom := showMessage "Request rejected." "success" s.dom }
      let p := loadAdminPending env s1
      (p.1, call :: p.2)
  | .error msg => ({ s with dom := showMessage msg "error" s.dom }, [call])

/-- The add-equipment form submit: post the new item, then refresh the
inventory (the form reset is not modeled). -/
def addEquipment (env : Env) (name category : String) (qty : Int) (s : AppState) :
    AppState × List ApiCall :=
  let call := mkCall s.token "/equipment/" "POST"
    (some (Json.obj [("name", Json.str name), ("category", Json.str category),
                     ("condition", Json.str "New"), ("total_quantity", Json.num qty)]))
  match env.mutate "/equipment/" with
  | .ok _ =>
      let s1 := { s with dom := showMessage "Equipment added." "success" s.dom }
      let p := loadAdminInventory env s1
      (p.1, call :: p.2)
  | .error msg => ({ s with dom := showMessage msg "error" s.dom }, [call])

/-- `adminDeleteItem`: a declined confirm aborts silently; otherwise delete
and refresh the inventory. -/
def adminDeleteItem (env : Env) (equipmentId : Int) (confirmed : Bool) (s : AppState) :
    AppState × List ApiCall :=
  if confirmed then
    let call := mkCall s.token ("/equipment/" ++ toString equipmentId) "DELETE" none
    match env.mutate ("/equipment/" ++ toString equipmentId) with
    | .ok _ =>
        let s1 := { s with dom := showMessage "Equipment deleted." "success" s.dom }
        let p := loadAdminInventory env s1
        (p.1, call :: p.2)
    | .error msg => ({ s with dom := showMessage msg "error" s.dom }, [call])
  else (s, [])

/-- The check-overdue button: post the sweep, report how many were marked,
then refresh the reports tab. -/
def checkOverdue (env : Env) (s : AppState) : AppState × List ApiCall :=
  let call := mkCall s.token "/requests/check-overdue/" "POST" none
  match env.checkOverdueList with
  | .ok data =>
      let msg1 := toString data.length ++ " item(s) marked as overdue."
      let s1 := { s with dom := showMessage msg1 "success" s.dom }
      let p := loadAdminReports env s1
      (p.1, call :: p.2)
  | .error msg => ({ s with dom := showMessage msg "error" s.dom }, [call])

/-- `adminCompleteRepair`: post the completion, then refresh the reports. -/
def adminCompleteRepair (env : Env) (repairId : Int) (s : AppState) : AppState × List ApiCall :=
  let call := mkCall s.token ("/repairs/" ++ toString repairId ++ "/complete") "POST" none
  match env.mutate ("/repairs/" ++ toString repairId ++ "/complete") with
  | .ok _ =>
      let s1 := { s with dom := showMessage "Repair marked as complete." "success" s.dom }
      let p := loadAdminReports env s1
      (p.1, call :: p.2)
  | .error msg => ({ s with dom := showMessage msg "error" s.dom }, [call])

/-- The login form submit: a raw fetch to `/token` with no Authorization
header; on success store the credential in the module variable and durable
storage and load the dashboard; on failure only show the message. -/
def login (env : Env) (s : AppState) : AppState × List ApiCall :=
  let call : ApiCall := { endpoint := "/token", method := "POST",
                          authHeader := none, body := none }
  match env.tokenResponse with
  | .ok tok =>
      let s1 := { s with token := some tok, storedToken := some tok }
      let p := loadUserDashboard env s1
      (p.1, call :: p.2)
  | .error msg => ({ s with dom := showMessage msg "error" s.dom }, [call])

/-- The register form submit: a raw fetch to `/register/` with no
Authorization header (the card toggling and form reset are not modeled). -/
def registerUser (env : Env) (username password role : String) (s : AppState) :
    AppState × List ApiCall :=
  let call : ApiCall := { endpoint := "/register/", method := "POST", authHeader := none,
                          body := some (Json.obj [("username", Json.str username),
                                                  ("password", Json.str password),
                                                  ("role", Json.str role)]) }
  match env.registerResponse with
  | .ok _ =>
      ({ s with dom := showMessage "Registration successful! Please log in." "success" s.dom },
       [call])
  | .error msg => ({ s with dom := showMessage msg "error" s.dom }, [call])

/-- The logout button: clear the credential and role, drop the stored token,
confirm, and return to the login screen. -/
def logout (s : AppState) : AppState × List ApiCall :=
  ({ s with token := none, userRole := none, storedToken := none,
            dom := showPage .auth (showMessage "You have been logged out." "success" s.dom) },
   [])

/-- `init`: restore a saved credential into the module variable and re-derive
the active view, or fall back to the login screen. -/
def init (env : Env) (s : AppState) : AppState × List ApiCall :=
  match s.storedToken with
  | some t => loadUserDashboard env { s with token := some t }
  | none => ({ s with dom := showPage .auth s.dom }, [])

/-- Every operation of the client, with the user-supplied parameters each
handler reads. -/
inductive Op where
  | opLogin : Op
  | opRegister (username password role : String) : Op
  | opLogout : Op
  | opInit : Op
  | opLoadUserDashboard : Op
  | opLoadStudentEquipment : Op
  | opLoadStudentRequests : Op
  | opRequestItem (equipmentId : Int) (today : Date) : Op
  | opReturnItem (requestId : Int) : Op
  | opReportDamage (equipmentId : Int) (desc : Option String) : Op
  | opLoadAdminPending : Op
  | opAdminApprove (requestId : Int) : Op
  | opAdminReject (requestId : Int) : Op
  | opLoadAdminInventory : Op
  | opAddEquipment (name category : String) (qty : Int) : Op
  | opAdminDeleteItem (equipmentId : Int) (confirmed : Bool) : Op
  | opLoadAdminReports : Op
  | opCheckOverdue : Op
  | opAdminCompleteRepair (repairId : Int) : Op
deriving DecidableEq

/-- Dispatch an operation to its transition. -/
def step (op : Op) (env : Env) (s : AppState) : AppState × List ApiCall :=
  match op with
  | .opLogin => login env s
  | .opRegister u p r => registerUser env u p r s
  | .opLogout => logout s
  | .opInit => init env s
  | .opLoadUserDashboard => loadUserDashboard env s
  | .opLoadStudentEquipment => loadStudentEquipment env s
  | .opLoadStudentRequests => loadStudentRequests env s
  | .opRequestItem e d => requestItem env e d s
  | .opReturnItem r => returnItem env r s
  | .opReportDamage e d => reportDamage env e d s
  | .opLoadAdminPending => loadAdminPending env s
  | .opAdminApprove r => adminApprove env r s
  | .opAdminReject r => adminReject env r s
  | .opLoadAdminInventory => loadAdminInventory env s
  | .opAddEquipment n c q => addEquipment env n c q s
  | .opAdminDeleteItem e c => adminDeleteItem env e c s
  | .opLoadAdminReports => loadAdminReports env s
  | .opCheckOverdue => checkOverdue env s
  | .opAdminCompleteRepair r => adminCompleteRepair env r s

/-! ## Frame lemmas

The operations that may write the credential or switch pages, and the fact
that every other operation preserves the credential, the stored credential
and the page visibilities, reading the credential into the Authorization
header of each request it issues. -/

/-- Operations wired to the session and the view router: login, logout, the
startup restore, and the role lookup (whose failure handler clears the
credential). -/
def sessionOp : Op → Bool
  | .opLogin => true
  | .opLogout => true
  | .opInit => true
  | .opLoadUserDashboard => true
  | _ => false

/-- The state fields a non-session operation never changes: both credential
copies and the four display toggles. -/
def stableCore (s t : AppState) : Prop :=
  t.token = s.token ∧ t.storedToken = s.storedToken ∧
  t.dom.authVisible = s.dom.authVisible ∧
  t.dom.studentVisible = s.dom.studentVisible ∧
  t.dom.adminVisible = s.dom.adminVisible ∧
  t.dom.logoutVisible = s.dom.logoutVisible

theorem stableCore_refl (s : AppState) : stableCore s s :=
  ⟨rfl, rfl, rfl, rfl, rfl, rfl⟩

theorem stableCore_trans {s t u : AppState} (h1 : stableCore s t) (h2 : stableCore t u) :
    stableCore s u :=
  ⟨h2.1.trans h1.1, h2.2.1.trans h1.2.1, h2.2.2.1.trans h1.2.2.1,
   h2.2.2.2.1.trans h1.2.2.2.1, h2.2.2.2.2.1.trans h1.2.2.2.2.1,
   h2.2.2.2.2.2.trans h1.2.2.2.2.2⟩

theorem loadStudentEquipment_stable (env : Env) (s : AppState) :
    stableCore s (loadStudentEquipment env s).1 ∧
    ∀ c ∈ (loadStudentEquipment env s).2, c.authHeader = some (bearerOf s.token) := by
  unfold loadStudentEquipment
  cases env.equipmentList <;> simp [stableCore, showMessage, mkCall]

theorem loadStudentRequests_stable (env : Env) (s : AppState) :
    stableCore s (loadStudentRequests env s).1 ∧
    ∀ c ∈ (loadStudentRequests env s).2, c.authHeader = some (bearerOf s.token) := by
  unfold loadStudentRequests
  cases env.myRequests <;> simp [stableCore, showMessage, mkCall]

theorem loadStudentData_stable (env : Env) (s : AppState) :
    stableCore s (loadStudentData env s).1 ∧
    ∀ c ∈ (loadStudentData env s).2, c.authHeader = some (bearerOf s.token) := by
  obtain ⟨h1, h2⟩ := loadStudentEquipment_stable env s
  obtain ⟨h3, h4⟩ := loadStudentRequests_stable env (loadStudentEquipment env s).1
  unfold loadStudentData
  refine ⟨stableCore_trans h1 h3, ?_⟩
  intro c hc
  simp only [List.mem_append] at hc
  rcases hc with hc | hc
  · exact h2 c hc
  · exact (h4 c hc).trans (by rw [h1.1])

theorem loadAdminPending_stable (env : Env) (s : AppState) :
    stableCore s (loadAdminPending env s).1 ∧
    ∀ c ∈ (loadAdminPending env s).2, c.authHeader = some (bearerOf s.token) := by
  unfold loadAdminPending
  cases env.pendingRequests <;> simp [stableCore, showMessage, mkCall]

theorem loadAdminInventory_stable (env : Env) (s : AppState) :
    stableCore s (loadAdminInventory env s).1 ∧
    ∀ c ∈ (loadAdminInventory env s).2, c.authHeader = some (bearerOf s.token) := by
  unfold loadAdminInventory
  cases env.equipmentList <;> simp [stableCore, showMessage, mkCall]

theorem loadAdminReports_stable (env : Env) (s : AppState) :
    stableCore s (loadAdminReports env s).1 ∧
    ∀ c ∈ (loadAdminReports env s).2, c.authHeader = some (bearerOf s.token) := by
  unfold loadAdminReports
  cases promiseAll3 env.overdueList env.repairsList env.analyticsList with
  | error m => simp [stableCore, showMessage, mkCall]
  | ok t =>
      rcases t with ⟨o, r, a⟩
      simp [stableCore, showMessage, mkCall]

/-- Composing a message update `s1` of `s` with a reload whose calls read the
credential of `s1`: the core stays stable and every call, the leading one
included, reads the credential of `s`. -/
theorem stable_after_reload {s s1 : AppState} {call : ApiCall} {p : AppState × List ApiCall}
    (hs1 : stableCore s s1)
    (hp : stableCore s1 p.1 ∧ ∀ c ∈ p.2, c.authHeader = some (bearerOf s1.token))
    (hcall : call.authHeader = some (bearerOf s.token)) :
    stableCore s p.1 ∧ ∀ c ∈ call :: p.2, c.authHeader = some (bearerOf s.token) := by
  refine ⟨stableCore_trans hs1 hp.1, ?_⟩
  intro c hc
  simp only [List.mem_cons] at hc
  rcases hc with rfl | hc
  · exact hcall
  · exact (hp.2 c hc).trans (by rw [hs1.1])

theorem requestItem_stable (env : Env) (equipmentId : Int) (today : Date) (s : AppState) :
    stableCore s (requestItem env equipmentId today s).1 ∧
    ∀ c ∈ (requestItem env equipmentId today s).2, c.authHeader = some (bearerOf s.token) := by
  unfold requestItem
  cases env.mutate "/requests/" with
  | error m => simp [stableCore, showMessage, mkCall]
  | ok u =>
      refine stable_after_reload ?_ (loadStudentData_stable env _) rfl
      simp [stableCore, showMessage]

theorem returnItem_stable (env : Env) (requestId : Int) (s : AppState) :
    stableCore s (returnItem env requestId s).1 ∧
    ∀ c ∈ (returnItem env requestId s).2, c.authHeader = some (bearerOf s.token) := by
  unfold returnItem
  cases env.mutate ("/requests/" ++ toString requestId ++ "/return") with
  | error m => simp [stableCore, showMessage, mkCall]
  | ok u =>
      refine stable_after_reload ?_ (loadStudentData_stable env _) rfl
      simp [stableCore, showMessage]

theorem reportDamage_stable (env : Env) (equipmentId : Int) (desc : Option String)
    (s : AppState) :
    stableCore s (reportDamage env equipmentId desc s).1 ∧
    ∀ c ∈ (reportDamage env equipmentId desc s).2, c.authHeader = some (bearerOf s.token) := by
  unfold reportDamage
  cases desc with
  | none => exact ⟨stableCore_refl s, by simp⟩
  | some d =>
      by_cases hd : d = ""
      · simp only [hd, if_pos rfl]
        exact ⟨stableCore_refl s, by simp⟩
      · simp only [if_neg hd]
        cases env.mutate ("/equipment/" ++ toString equipmentId ++ "/report-damage") with
        | error m => simp [stableCore, showMessage, mkCall]
        | ok u =>
            refine stable_after_reload ?_ (loadStudentData_stable env _) rfl
            simp [stableCore, showMessage]

theorem adminApprove_stable (env : Env) (requestId : Int) (s : AppState) :
    stableCore s (adminApprove env requestId s).1 ∧
    ∀ c ∈ (adminApprove env requestId s).2, c.authHeader = some (bearerOf s.token) := by
  unfold adminApprove
  by_cases hd : env.returnDateInput requestId = ""
  · simp only [hd, if_pos rfl]
    exact ⟨by simp [stableCore, showMessage], by simp⟩
  · simp only [if_neg hd]
    cases env.mutate ("/requests/" ++ toString requestId ++ "/approve") with
    | error m => simp [stableCore, showMessage, mkCall]
    | ok u =>
        refine stable_after_reload ?_ (loadAdminPending_stable env _) rfl
        simp [stableCore, showMessage]

theorem adminReject_stable (env : Env) (requestId : Int) (s : AppState) :
    stableCore s (adminReject env requestId s).1 ∧
    ∀ c ∈ (adminReject env requestId s).2, c.authHeader = some (bearerOf s.token) := by
  unfold adminReject
  cases env.mutate ("/requests/" ++ toString requestId ++ "/reject") with
  | error m => simp [stableCore, showMessage, mkCall]
  | ok u =>
      refine stable_after_reload ?_ (loadAdminPending_stable env _) rfl
      simp [stableCore, showMessage]

theorem addEquipment_stable (env : Env) (name category : String) (qty : Int) (s : AppState) :
    stableCore s (addEquipment env name category qty s).1 ∧
    ∀ c ∈ (addEquipment env name category qty s).2,
      c.authHeader = some (bearerOf s.token) := by
  unfold addEquipment
  cases env.mutate "/equipment/" with
  | error m => simp [stableCore, showMessage, mkCall]
  | ok u =>
      refine stable_after_reload ?_ (loadAdminInventory_stable env _) rfl
      simp [stableCore, showMessage]

theorem adminDeleteItem_stable (env : Env) (equipmentId : Int) (confirmed : Bool)
    (s : AppState) :
    stableCore s (adminDeleteItem env equipmentId confirmed s).1 ∧
    ∀ c ∈ (adminDeleteItem env equipmentId confirmed s).2,
      c.authHeader = some (bearerOf s.token) := by
  unfold adminDeleteItem
  cases confirmed with
  | false => exact ⟨stableCore_refl s, by simp⟩
  | true =>
      simp only [if_pos rfl]
      cases env.mutate ("/equipment/" ++ toString equipmentId) with
      | error m => simp [stableCore, showMessage, mkCall]
      | ok u =>
          refine stable_after_reload ?_ (loadAdminInventory_stable env _) rfl
          simp [stableCore, showMessage]

theorem checkOverdue_stable (env : Env) (s : AppState) :
    stableCore s (checkOverdue env s).1 ∧
    ∀ c ∈ (checkOverdue env s).2, c.authHeader = some (bearerOf s.token) := by
  unfold checkOverdue
  cases env.checkOverdueList with
  | error m => simp [stableCore, showMessage, mkCall]
  | ok data =>
      refine stable_after_reload ?_ (loadAdminReports_stable env _) rfl
      simp [stableCore, showMessage]

theorem adminCompleteRepair_stable (env : Env) (repairId : Int) (s : AppState) :
    stableCore s (adminCompleteRepair env repairId s).1 ∧
    ∀ c ∈ (adminCompleteRepair env repairId s).2,
      c.authHeader = some (bearerOf s.token) := by
  unfold adminCompleteRepair
  cases env.mutate ("/repairs/" ++ toString repairId ++ "/complete") with
  | error m => simp [stableCore, showMessage, mkCall]
  | ok u =>
      refine stable_after_reload ?_ (loadAdminReports_stable env _) rfl
      simp [stableCore, showMessage]

theorem registerUser_stable (env : Env) (username password role : String) (s : AppState) :
    stableCore s (registerUser env username password role s).1 ∧
    (registerUser env username password role s).1.token = s.token := by
  unfold registerUser
  cases env.registerResponse with
  | error m => exact ⟨by simp [stableCore, showMessage], rfl⟩
  | ok u => exact ⟨by simp [stableCore, showMessage], rfl⟩

theorem registerUser_calls (env : Env) (username password role : String) (s : AppState) :
    ∀ c ∈ (registerUser env username password role s).2, c.authHeader = none := by
  unfold registerUser
  cases env.registerResponse <;> simp

theorem auth_calls_weaken {cs : List ApiCall} {v : String}
    (h : ∀ c ∈ cs, c.authHeader = some v) :
    ∀ c ∈ cs, c.authHeader = none ∨ c.authHeader = some v :=
  fun c hc => Or.inr (h c hc)

/-- Any operation outside the session set preserves the credential (both
copies) and the page toggles, and every request it issues either carries no
Authorization header (the raw register fetch) or one reading the credential. -/
theorem step_stable (op : Op) (env : Env) (s : AppState) (h : sessionOp op = false) :
    stableCore s (step op env s).1 ∧
    ∀ c ∈ (step op env s).2,
      c.authHeader = none ∨ c.authHeader = some (bearerOf s.token) := by
  cases op with
  | opLogin => exact Bool.noConfusion h
  | opRegister u p r =>
      exact ⟨(registerUser_stable env u p r s).1,
        fun c hc => Or.inl (registerUser_calls env u p r s c hc)⟩
  | opLogout => exact Bool.noConfusion h
  | opInit => exact Bool.noConfusion h
  | opLoadUserDashboard => exact Bool.noConfusion h
  | opLoadStudentEquipment =>
      exact ⟨(loadStudentEquipment_stable env s).1,
        auth_calls_weaken (loadStudentEquipment_stable env s).2⟩
  | opLoadStudentRequests =>
      exact ⟨(loadStudentRequests_stable env s).1,
        auth_calls_weaken (loadStudentRequests_stable env s).2⟩
  | opRequestItem e d =>
      exact ⟨(requestItem_stable env e d s).1,
        auth_calls_weaken (requestItem_stable env e d s).2⟩
  | opReturnItem r =>
      exact ⟨(returnItem_stable env r s).1,
        auth_calls_weaken (returnItem_stable env r s).2⟩
  | opReportDamage e d =>
      exact ⟨(reportDamage_stable env e d s).1,
        auth_calls_weaken (reportDamage_stable env e d s).2⟩
  | opLoadAdminPending =>
      exact ⟨(loadAdminPending_stable env s).1,
        auth_calls_weaken (loadAdminPending_stable env s).2⟩
  | opAdminApprove r =>
      exact ⟨(adminApprove_stable env r s).1,
        auth_calls_weaken (adminApprove_stable env r s).2⟩
  | opAdminReject r =>
      exact ⟨(adminReject_stable env r s).1,
        auth_calls_weaken (adminReject_stable env r s).2⟩
  | opLoadAdminInventory =>
      exact ⟨(loadAdminInventory_stable env s).1,
        auth_calls_weaken (loadAdminInventory_stable env s).2⟩
  | opAddEquipment n c q =>
      exact ⟨(addEquipment_stable env n c q s).1,
        auth_calls_weaken (addEquipment_stable env n c q s).2⟩
  | opAdminDeleteItem e c =>
      exact ⟨(adminDeleteItem_stable env e c s).1,
        auth_calls_weaken (adminDeleteItem_stable env e c s).2⟩
  | opLoadAdminReports =>
      exact ⟨(loadAdminReports_stable env s).1,
        auth_calls_weaken (loadAdminReports_stable env s).2⟩
  | opCheckOverdue =>
      exact ⟨(checkOverdue_stable env s).1,
        auth_calls_weaken (checkOverdue_stable env s).2⟩
  | opAdminCompleteRepair r =>
      exact ⟨(adminCompleteRepair_stable env r s).1,
        auth_calls_weaken (adminCompleteRepair_stable env r s).2⟩

/-! ## Concrete fixtures for evaluating the model -/

/-- An environment in which every fetch succeeds (with empty lists, a student
role, and a pre-filled return date). -/
def wEnv : Env :=
  { usersMe := Except.ok "student"
    equipmentList := Except.ok []
    myRequests := Except.ok []
    pendingRequests := Except.ok []
    overdueList := Except.ok []
    repairsList := Except.ok []
    analyticsList := Except.ok []
    checkOverdueList := Except.ok []
    mutate := fun _ => Except.ok ()
    tokenResponse := Except.ok "tok1"
    registerResponse := Except.ok ()
    returnDateInput := fun _ => "2025-02-03" }

/-- `wEnv` with the role lookup, the equipment fetch and the overdue fetch
failing. -/
def wEnvErr : Env :=
  { wEnv with usersMe := Except.error "Could not validate credentials",
              equipmentList := Except.error "boom",
              overdueList := Except.error "boom" }

/-- `wEnv` with an empty return-date input. -/
def wEnvEmptyDate : Env :=
  { wEnv with returnDateInput := fun _ => "" }

/-- A blank document. -/
def wDom : DomState :=
  { authVisible := true, studentVisible := false, adminVisible := false,
    logoutVisible := false, equipTbody := "", myRequestsTbody := "",
    adminPendingTbody := "", adminInventoryTbody := "", overdueTbody := "",
    repairsTbody := "", analyticsTbody := "", message := "", messageClass := "" }

/-- A logged-in state. -/
def wState : AppState :=
  { token := some "t1", userRole := some "student", storedToken := some "t1", dom := wDom }

/-- A logged-in state with stale equipment rows in the table. -/
def wStateB : AppState :=
  { wState with dom := { wDom with equipTbody := "<tr><td>stale</td></tr>" } }

/-! ## The claims -/

/-- C1: every invocation of `requestItem` submits a request body whose
`borrow_date` is the serialized current date and whose `expected_return_date`
is the serialized result of advancing today by 5 via `setDate`; that result
is exactly 5 calendar days later (its linear day number advances by 5) and is
again a valid date, so month and year boundaries roll over correctly. -/
theorem c1_requestItem_date_policy (today : Date) (h : ValidDate today)
    (equipmentId : Int) :
    (∀ env s, (requestItem env equipmentId today s).2.head? = some
      (mkCall s.token "/requests/" "POST" (some (requestItemJsonBody equipmentId today)))) ∧
    getField (requestItemJsonBody equipmentId today) "borrow_date" =
      some (Json.str (isoDate today)) ∧
    getField (requestItemJsonBody equipmentId today) "expected_return_date" =
      some (Json.str (isoDate (addDays5 today))) ∧
    dayNumber (addDays5 today) = dayNumber today + 5 ∧
    ValidDate (addDays5 today) := by
  refine ⟨?_, rfl, rfl, (addDays5_correct today h).1, (addDays5_correct today h).2⟩
  intro env s
  unfold requestItem
  cases env.mutate "/requests/" <;> rfl

/-- C1 witness: on Jan 29, 2025 the computed return date is Feb 3, 2025 and
the serialized body field matches. -/
theorem c1_requestItem_date_policy_witness :
    ValidDate { year := 2025, month := 1, day := 29 } ∧
    dayNumber (addDays5 { year := 2025, month := 1, day := 29 }) =
      dayNumber { year := 2025, month := 1, day := 29 } + 5 ∧
    addDays5 { year := 2025, month := 1, day := 29 } = { year := 2025, month := 2, day := 3 } ∧
    getField (requestItemJsonBody 7 { year := 2025, month := 1, day := 29 })
      "expected_return_date" = some (Json.str "2025-02-03") :=
  ⟨by decide,
   (c1_requestItem_date_policy { year := 2025, month := 1, day := 29 } (by decide) 7).2.2.2.1,
   by decide, rfl⟩

/-- C2 counterexample: the claim that the raised message always equals the
`detail` field when present fails when `detail` is the empty string: the
field is present and equals `""`, yet the code raises the generic message
(JavaScript `||` treats the empty string as absent). -/
theorem c2_detail_counterexample :
    getField (Json.obj [("detail", Json.str "")]) "detail" = some (Json.str "") ∧
    apiFetch { status := 400, body := some (Json.obj [("detail", Json.str "")]) } =
      Except.error genericApiError ∧
    genericApiError ≠ "" :=
  ⟨rfl, rfl, by decide⟩

/-- C2 (amended): on a non-2xx response with a JSON object body, `apiFetch`
raises the `detail` field when it is a present, non-empty string, and the
generic message when `detail` is absent or empty; in particular HTTP 400 with
detail `bad input` raises `bad input`. -/
theorem c2_error_detail (st : Nat) (fields : List (String × Json))
    (hst : responseOk { status := st, body := some (Json.obj fields) } = false) :
    (∀ d, fields.lookup "detail" = some (Json.str d) → d ≠ "" →
      apiFetch { status := st, body := some (Json.obj fields) } = Except.error d) ∧
    (fields.lookup "detail" = none →
      apiFetch { status := st, body := some (Json.obj fields) } =
        Except.error genericApiError) ∧
    (fields.lookup "detail" = some (Json.str "") →
      apiFetch { status := st, body := some (Json.obj fields) } =
        Except.error genericApiError) := by
  have hnot : ¬ (responseOk { status := st, body := some (Json.obj fields) } = true) := by
    rw [hst]
    exact Bool.false_ne_true
  have hbase : apiFetch { status := st, body := some (Json.obj fields) } =
      Except.error (errorDetailMessage (Json.obj fields)) := by
    unfold apiFetch
    rw [if_neg hnot]
  refine ⟨?_, ?_, ?_⟩
  · intro d hd hne
    rw [hbase]
    simp only [errorDetailMessage, getField]
    rw [hd]
    simp [truthy, jsToString, bne_iff_ne, hne]
  · intro hd
    rw [hbase]
    simp only [errorDetailMessage, getField]
    rw [hd]
  · intro hd
    rw [hbase]
    simp only [errorDetailMessage, getField]
    rw [hd]
    simp [truthy]

/-- C2 witness: the amended rule at the spec's own test vector, HTTP 400 with
body detail `bad input`. -/
theorem c2_error_detail_witness :
    apiFetch { status := 400, body := some (Json.obj [("detail", Json.str "bad input")]) } =
      Except.error "bad input" :=
  (c2_error_detail 400 [("detail", Json.str "bad input")] rfl).1 "bad input" rfl (by decide)

/-- C3: `apiFetch` resolves an HTTP 204 response to the absence value without
attempting JSON parsing (even a body that is not valid JSON cannot make it
throw), and resolves every other 2xx response to the parsed JSON body. -/
theorem c3_apiFetch_204 (r : Response) :
    (r.status = 204 → apiFetch r = Except.ok none) ∧
    (responseOk r = true → r.status ≠ 204 → ∀ j, r.body = some j →
      apiFetch r = Except.ok (some j)) := by
  constructor
  · intro h204
    have hok : responseOk r = true := by
      unfold responseOk
      rw [h204]
      decide
    simp [apiFetch, hok, h204]
  · intro hok hne j hb
    have hbeq : (r.status == 204) = false := beq_eq_false_iff_ne.mpr hne
    simp [apiFetch, hok, hbeq, hb]

/-- C3 witness: a 204 with an unparseable body resolves to the absence value;
a 200 with a JSON body resolves to that body. -/
theorem c3_apiFetch_204_witness :
    apiFetch { status := 204, body := none } = Except.ok none ∧
    apiFetch { status := 200, body := some (Json.str "ok") } =
      Except.ok (some (Json.str "ok")) :=
  ⟨(c3_apiFetch_204 { status := 204, body := none }).1 rfl,
   (c3_apiFetch_204 { status := 200, body := some (Json.str "ok") }).2 rfl
     (by decide) (Json.str "ok") rfl⟩

theorem promiseAll3_error {α β γ : Type} (a : Except String α) (b : Except String β)
    (c : Except String γ) (msg : String)
    (h : a = Except.error msg ∨ b = Except.error msg ∨ c = Except.error msg) :
    ∃ m, promiseAll3 a b c = Except.error m := by
  rcases a with m1 | x
  · exact ⟨m1, rfl⟩
  · rcases b with m2 | y
    · exact ⟨m2, rfl⟩
    · rcases c with m3 | z
      · exact ⟨m3, rfl⟩
      · rcases h with h | h | h <;> exact absurd h (by simp)

/-- C4: a failing role lookup in `loadUserDashboard` clears the credential
(module variable and durable storage) and forces the login screen; every
operation outside the session set leaves the current view and the credential
unchanged on any outcome, a failing equipment fetch in particular updating
only the shared message area. -/
theorem c4_auth_failure_forces_login (env : Env) (s : AppState) :
    (∀ msg, env.usersMe = Except.error msg →
      (loadUserDashboard env s).1.token = none ∧
      (loadUserDashboard env s).1.storedToken = none ∧
      (loadUserDashboard env s).1.dom.authVisible = true ∧
      (loadUserDashboard env s).1.dom.studentVisible = false ∧
      (loadUserDashboard env s).1.dom.adminVisible = false ∧
      (loadUserDashboard env s).1.dom.logoutVisible = false ∧
      (loadUserDashboard env s).1.dom.message = msg) ∧
    (∀ msg, env.equipmentList = Except.error msg →
      (loadStudentEquipment env s).1 = { s with dom := showMessage msg "error" s.dom }) ∧
    (∀ op, sessionOp op = false → stableCore s (step op env s).1) := by
  refine ⟨?_, ?_, ?_⟩
  · intro msg h
    unfold loadUserDashboard
    rw [h]
    simp [showPage, hideAllPages, setPageVisible, showMessage, pageElemId]
  · intro msg h
    simp [loadStudentEquipment, h]
  · intro op h
    exact (step_stable op env s h).1

/-- C4 witness: at a concrete logged-in state, the failure branches and one
non-session operation. -/
theorem c4_auth_failure_forces_login_witness :
    (loadUserDashboard wEnvErr wState).1.token = none ∧
    (loadUserDashboard wEnvErr wState).1.dom.authVisible = true ∧
    (loadStudentEquipment wEnvErr wState).1 =
      { wState with dom := showMessage "boom" "error" wState.dom } ∧
    stableCore wState (step Op.opLoadStudentRequests wEnvErr wState).1 :=
  ⟨((c4_auth_failure_forces_login wEnvErr wState).1 "Could not validate credentials" rfl).1,
   ((c4_auth_failure_forces_login wEnvErr wState).1 "Could not validate credentials" rfl).2.2.1,
   (c4_auth_failure_forces_login wEnvErr wState).2.1 "boom" rfl,
   (c4_auth_failure_forces_login wEnvErr wState).2.2 Op.opLoadStudentRequests rfl⟩

/-- C5: an empty return-date input makes `adminApprove` issue no request and
change nothing but the message area; a non-empty input issues the approve
call carrying that date as `expected_return_date`. -/
theorem c5_adminApprove_validation (env : Env) (requestId : Int) (s : AppState) :
    (env.returnDateInput requestId = "" →
      (adminApprove env requestId s).2 = [] ∧
      (adminApprove env requestId s).1 =
        { s with dom := showMessage "Please set a return date." "error" s.dom }) ∧
    (env.returnDateInput requestId ≠ "" →
      (adminApprove env requestId s).2.head? = some
        (mkCall s.token ("/requests/" ++ toString requestId ++ "/approve") "POST"
          (some (Json.obj [("expected_return_date",
            Json.str (env.returnDateInput requestId))])))) := by
  constructor
  · intro h
    constructor
    · simp [adminApprove, h]
    · simp [adminApprove, h]
  · intro h
    simp only [adminApprove]
    rw [if_neg h]
    cases env.mutate ("/requests/" ++ toString requestId ++ "/approve") <;> rfl

/-- C5 witness: an empty return-date input at a concrete state. -/
theorem c5_adminApprove_validation_witness :
    (adminApprove wEnvEmptyDate 3 wState).2 = [] ∧
    (adminApprove wEnvEmptyDate 3 wState).1 =
      { wState with dom := showMessage "Please set a return date." "error" wState.dom } :=
  (c5_adminApprove_validation wEnvEmptyDate 3 wState).1 rfl

/-- C6: `loadAdminReports` always issues exactly the three report fetches;
a failure of any of the three aborts all three renders (each table keeps its
prior markup), and all three tables are rendered when all three succeed. -/
theorem c6_reports_all_or_nothing (env : Env) (s : AppState) :
    (loadAdminReports env s).2 =
      [mkCall s.token "/requests/overdue/" "GET" none,
       mkCall s.token "/repairs/" "GET" none,
       mkCall s.token "/analytics/usage" "GET" none] ∧
    (∀ msg, env.overdueList = Except.error msg ∨ env.repairsList = Except.error msg ∨
        env.analyticsList = Except.error msg →
      (loadAdminReports env s).1.dom.overdueTbody = s.dom.overdueTbody ∧
      (loadAdminReports env s).1.dom.repairsTbody = s.dom.repairsTbody ∧
      (loadAdminReports env s).1.dom.analyticsTbody = s.dom.analyticsTbody) ∧
    (∀ o r a, env.overdueList = Except.ok o → env.repairsList = Except.ok r →
        env.analyticsList = Except.ok a →
      (loadAdminReports env s).1.dom.overdueTbody = renderOverdue o ∧
      (loadAdminReports env s).1.dom.repairsTbody = renderRepairs r ∧
      (loadAdminReports env s).1.dom.analyticsTbody = renderAnalytics a) := by
  refine ⟨?_, ?_, ?_⟩
  · unfold loadAdminReports
    cases promiseAll3 env.overdueList env.repairsList env.analyticsList with
    | error m => rfl
    | ok t =>
        rcases t with ⟨o, r, a⟩
        rfl
  · intro msg h
    obtain ⟨m, hm⟩ := promiseAll3_error env.overdueList env.repairsList env.analyticsList msg h
    unfold loadAdminReports
    rw [hm]
    simp [showMessage]
  · intro o r a h1 h2 h3
    have hall : promiseAll3 env.overdueList env.repairsList env.analyticsList =
        Except.ok (o, r, a) := by
      unfold promiseAll3
      rw [h1, h2, h3]
    unfold loadAdminReports
    rw [hall]
    simp

/-- C6 witness: a failing overdue fetch leaves all three tables untouched; an
all-success environment renders all three. -/
theorem c6_reports_all_or_nothing_witness :
    ((loadAdminReports wEnvErr wState).1.dom.overdueTbody = wState.dom.overdueTbody ∧
     (loadAdminReports wEnvErr wState).1.dom.repairsTbody = wState.dom.repairsTbody ∧
     (loadAdminReports wEnvErr wState).1.dom.analyticsTbody = wState.dom.analyticsTbody) ∧
    ((loadAdminReports wEnv wState).1.dom.overdueTbody = renderOverdue [] ∧
     (loadAdminReports wEnv wState).1.dom.repairsTbody = renderRepairs [] ∧
     (loadAdminReports wEnv wState).1.dom.analyticsTbody = renderAnalytics []) :=
  ⟨(c6_reports_all_or_nothing wEnvErr wState).2.1 "boom" (Or.inl rfl),
   (c6_reports_all_or_nothing wEnv wState).2.2 [] [] [] rfl rfl rfl⟩

/-- C7 counterexample: `loadUserDashboard` is neither the login nor the
logout handler, yet its failure path writes the credential variable: on an
authentication failure it changes `token` from `some "t1"` to `none` (as,
likewise, `init` writes it on startup restore). -/
theorem c7_token_writers_counterexample :
    Op.opLoadUserDashboard ≠ Op.opLogin ∧ Op.opLoadUserDashboard ≠ Op.opLogout ∧
    wState.token = some "t1" ∧
    (step Op.opLoadUserDashboard wEnvErr wState).1.token = none :=
  ⟨by decide, by decide, rfl, rfl⟩

/-- C7 (amended): the credential is written only by login, logout, the
failure path of the role lookup and the startup restore; every operation
outside this session set leaves it unchanged, and each request such an
operation issues either carries no Authorization header (the raw register
fetch) or reads the module-level credential. -/
theorem c7_token_frame (op : Op) (env : Env) (s : AppState) (h : sessionOp op = false) :
    (step op env s).1.token = s.token ∧
    ∀ c ∈ (step op env s).2,
      c.authHeader = none ∨ c.authHeader = some (bearerOf s.token) :=
  ⟨(step_stable op env s h).1.1, (step_stable op env s h).2⟩

/-- C7 witness: the equipment load at a concrete state. -/
theorem c7_token_frame_witness :
    (step Op.opLoadStudentEquipment wEnv wState).1.token = wState.token ∧
    ∀ c ∈ (step Op.opLoadStudentEquipment wEnv wState).2,
      c.authHeader = none ∨ c.authHeader = some (bearerOf wState.token) :=
  c7_token_frame Op.opLoadStudentEquipment wEnv wState rfl

/-- C8: after any `showPage` transition exactly one of the three page
containers is displayed, it is the requested one, and the logout button is
visible exactly when the displayed page is not the auth container. -/
theorem c8_showPage_exclusive (p : Page) (dom : DomState) :
    ((showPage p dom).authVisible.toNat + (showPage p dom).studentVisible.toNat +
      (showPage p dom).adminVisible.toNat = 1) ∧
    ((showPage p dom).authVisible = true ↔ p = Page.auth) ∧
    ((showPage p dom).studentVisible = true ↔ p = Page.student) ∧
    ((showPage p dom).adminVisible = true ↔ p = Page.admin) ∧
    ((showPage p dom).logoutVisible = true ↔ (showPage p dom).authVisible = false) := by
  cases p <;> simp [showPage, hideAllPages, setPageVisible, pageElemId]

/-- C9: every list-rendering function rebuilds its table body as a pure
function of the fetched list (the body is fully cleared and rebuilt, so
re-rendering the same list yields identical markup regardless of the prior
content of either document); and every mutating action (request, return,
report-damage, approve, reject, add, delete, complete-repair and the overdue
sweep), when its call resolves successfully, issues exactly one mutation
request followed by exactly one re-fetch of each owning list, whose rows
fully replace the corresponding tables. -/
theorem c9_rerender_idempotent (env : Env) (s t : AppState)
    (items : List Equipment) (reqs pend ovd chk : List Req) (reps : List Repair)
    (ana : List AnalyticsRow) (equipmentId requestId repairId qty : Int)
    (today : Date) (desc nm cat : String)
    (hEq : env.equipmentList = Except.ok items)
    (hMy : env.myRequests = Except.ok reqs)
    (hPend : env.pendingRequests = Except.ok pend)
    (hOvd : env.overdueList = Except.ok ovd)
    (hReps : env.repairsList = Except.ok reps)
    (hAna : env.analyticsList = Except.ok ana)
    (hChk : env.checkOverdueList = Except.ok chk)
    (hMut : ∀ e, env.mutate e = Except.ok ())
    (hDesc : desc ≠ "") (hDate : env.returnDateInput requestId ≠ "") :
    ((loadStudentEquipment env s).1.dom.equipTbody = renderEquipmentList items ∧
     (loadStudentEquipment env s).1.dom.equipTbody =
       (loadStudentEquipment env t).1.dom.equipTbody ∧
     (loadStudentRequests env s).1.dom.myRequestsTbody = renderMyRequests reqs ∧
     (loadStudentRequests env s).1.dom.myRequestsTbody =
       (loadStudentRequests env t).1.dom.myRequestsTbody ∧
     (loadAdminPending env s).1.dom.adminPendingTbody = renderPending pend ∧
     (loadAdminPending env s).1.dom.adminPendingTbody =
       (loadAdminPending env t).1.dom.adminPendingTbody ∧
     (loadAdminInventory env s).1.dom.adminInventoryTbody = renderInventory items ∧
     (loadAdminInventory env s).1.dom.adminInventoryTbody =
       (loadAdminInventory env t).1.dom.adminInventoryTbody ∧
     (loadAdminReports env s).1.dom.overdueTbody = renderOverdue ovd ∧
     (loadAdminReports env s).1.dom.repairsTbody = renderRepairs reps ∧
     (loadAdminReports env s).1.dom.analyticsTbody = renderAnalytics ana ∧
     (loadAdminReports env s).1.dom.overdueTbody =
       (loadAdminReports env t).1.dom.overdueTbody ∧
     (loadAdminReports env s).1.dom.repairsTbody =
       (loadAdminReports env t).1.dom.repairsTbody ∧
     (loadAdminReports env s).1.dom.analyticsTbody =
       (loadAdminReports env t).1.dom.analyticsTbody) ∧
    ((requestItem env equipmentId today s).2.map (fun c => (c.endpoint, c.method)) =
       [("/requests/", "POST"), ("/equipment/", "GET"), ("/requests/my/", "GET")] ∧
     (requestItem env equipmentId today s).1.dom.equipTbody = renderEquipmentList items ∧
     (requestItem env equipmentId today s).1.dom.myRequestsTbody = renderMyRequests reqs ∧
     (returnItem env requestId s).2.map (fun c => (c.endpoint, c.method)) =
       [("/requests/" ++ toString requestId ++ "/return", "POST"),
        ("/equipment/", "GET"), ("/requests/my/", "GET")] ∧
     (returnItem env requestId s).1.dom.equipTbody = renderEquipmentList items ∧
     (returnItem env requestId s).1.dom.myRequestsTbody = renderMyRequests reqs ∧
     (reportDamage env equipmentId (some desc) s).2.map (fun c => (c.endpoint, c.method)) =
       [("/equipment/" ++ toString equipmentId ++ "/report-damage", "POST"),
        ("/equipment/", "GET"), ("/requests/my/", "GET")] ∧
     (reportDamage env equipmentId (some desc) s).1.dom.equipTbody =
       renderEquipmentList items ∧
     (reportDamage env equipmentId (some desc) s).1.dom.myRequestsTbody =
       renderMyRequests reqs ∧
     (adminApprove env requestId s).2.map (fun c => (c.endpoint, c.method)) =
       [("/requests/" ++ toString requestId ++ "/approve", "POST"),
        ("/requests/pending/", "GET")] ∧
     (adminApprove env requestId s).1.dom.adminPendingTbody = renderPending pend ∧
     (adminReject env requestId s).2.map (fun c => (c.endpoint, c.method)) =
       [("/requests/" ++ toString requestId ++ "/reject", "POST"),
        ("/requests/pending/", "GET")] ∧
     (adminReject env requestId s).1.dom.adminPendingTbody = renderPending pend ∧
     (addEquipment env nm cat qty s).2.map (fun c => (c.endpoint, c.method)) =
       [("/equipment/", "POST"), ("/equipment/", "GET")] ∧
     (addEquipment env nm cat qty s).1.dom.adminInventoryTbody = renderInventory items ∧
     (adminDeleteItem env equipmentId true s).2.map (fun c => (c.endpoint, c.method)) =
       [("/equipment/" ++ toString equipmentId, "DELETE"), ("/equipment/", "GET")] ∧
     (adminDeleteItem env equipmentId true s).1.dom.adminInventoryTbody =
       renderInventory items ∧
     (adminCompleteRepair env repairId s).2.map (fun c => (c.endpoint, c.method)) =
       [("/repairs/" ++ toString repairId ++ "/complete", "POST"),
        ("/requests/overdue/", "GET"), ("/repairs/", "GET"), ("/analytics/usage", "GET")] ∧
     (adminCompleteRepair env repairId s).1.dom.overdueTbody = renderOverdue ovd ∧
     (adminCompleteRepair env repairId s).1.dom.repairsTbody = renderRepairs reps ∧
     (adminCompleteRepair env repairId s).1.dom.analyticsTbody = renderAnalytics ana ∧
     (checkOverdue env s).2.map (fun c => (c.endpoint, c.method)) =
       [("/requests/check-overdue/", "POST"), ("/requests/overdue/", "GET"),
        ("/repairs/", "GET"), ("/analytics/usage", "GET")] ∧
     (checkOverdue env s).1.dom.overdueTbody = renderOverdue ovd ∧
     (checkOverdue env s).1.dom.repairsTbody = renderRepairs reps ∧
     (checkOverdue env s).1.dom.analyticsTbody = renderAnalytics ana) := by
  have hload : ∀ u : AppState, loadStudentEquipment env u =
      ({ u with dom := { u.dom with equipTbody := renderEquipmentList items } },
       [mkCall u.token "/equipment/" "GET" none]) := by
    intro u
    unfold loadStudentEquipment
    rw [hEq]
  have hload2 : ∀ u : AppState, loadStudentRequests env u =
      ({ u with dom := { u.dom with myRequestsTbody := renderMyRequests reqs } },
       [mkCall u.token "/requests/my/" "GET" none]) := by
    intro u
    unfold loadStudentRequests
    rw [hMy]
  have hpend : ∀ u : AppState, loadAdminPending env u =
      ({ u with dom := { u.dom with adminPendingTbody := renderPending pend } },
       [mkCall u.token "/requests/pending/" "GET" none]) := by
    intro u
    unfold loadAdminPending
    rw [hPend]
  have hinv : ∀ u : AppState, loadAdminInventory env u =
      ({ u with dom := { u.dom with adminInventoryTbody := renderInventory items } },
       [mkCall u.token "/equipment/" "GET" none]) := by
    intro u
    unfold loadAdminInventory
    rw [hEq]
  have hall : promiseAll3 env.overdueList env.repairsList env.analyticsList =
      Except.ok (ovd, reps, ana) := by
    unfold promiseAll3
    rw [hOvd, hReps, hAna]
  have hrep : ∀ u : AppState, loadAdminReports env u =
      ({ u with dom := { u.dom with overdueTbody := renderOverdue ovd, repairsTbody := renderRepairs reps, analyticsTbody := renderAnalytics ana } },
       [mkCall u.token "/requests/overdue/" "GET" none,
        mkCall u.token "/repairs/" "GET" none,
        mkCall u.token "/analytics/usage" "GET" none]) := by
    intro u
    unfold loadAdminReports
    rw [hall]
  have hdata : ∀ u : AppState, loadStudentData env u =
      ({ u with dom := { u.dom with equipTbody := renderEquipmentList items, myRequestsTbody := renderMyRequests reqs } },
       [mkCall u.token "/equipment/" "GET" none,
        mkCall u.token "/requests/my/" "GET" none]) := by
    intro u
    show ((loadStudentRequests env (loadStudentEquipment env u).1).1,
      (loadStudentEquipment env u).2 ++ (loadStudentRequests env (loadStudentEquipment env u).1).2) = _
    rw [hload u, hload2]
    rfl
  have hreqI : requestItem env equipmentId today s =
      ({ s with dom := { s.dom with equipTbody := renderEquipmentList items, myRequestsTbody := renderMyRequests reqs, message := "Request submitted successfully!", messageClass := "success" } },
       mkCall s.token "/requests/" "POST" (some (requestItemJsonBody equipmentId today)) ::
         [mkCall s.token "/equipment/" "GET" none,
          mkCall s.token "/requests/my/" "GET" none]) := by
    simp only [requestItem, hMut]
    rw [hdata]
    rfl
  have hret : returnItem env requestId s =
      ({ s with dom := { s.dom with equipTbody := renderEquipmentList items, myRequestsTbody := renderMyRequests reqs, message := "Item returned successfully!", messageClass := "success" } },
       mkCall s.token ("/requests/" ++ toString requestId ++ "/return") "POST" none ::
         [mkCall s.token "/equipment/" "GET" none,
          mkCall s.token "/requests/my/" "GET" none]) := by
    simp only [returnItem, hMut]
    rw [hdata]
    rfl
  have hdam : reportDamage env equipmentId (some desc) s =
      ({ s with dom := { s.dom with equipTbody := renderEquipmentList items, myRequestsTbody := renderMyRequests reqs, message := "Damage reported. Thank you.", messageClass := "success" } },
       mkCall s.token ("/equipment/" ++ toString equipmentId ++ "/report-damage") "POST" (some (Json.obj [("equipment_id", Json.num equipmentId), ("description", Json.str desc)])) ::
         [mkCall s.token "/equipment/" "GET" none,
          mkCall s.token "/requests/my/" "GET" none]) := by
    simp only [reportDamage, hMut]
    rw [if_neg hDesc, hdata]
    rfl
  have happ : adminApprove env requestId s =
      ({ s with dom := { s.dom with adminPendingTbody := renderPending pend, message := "Request approved.", messageClass := "success" } },
       mkCall s.token ("/requests/" ++ toString requestId ++ "/approve") "POST" (some (Json.obj [("expected_return_date", Json.str (env.returnDateInput requestId))])) ::
         [mkCall s.token "/requests/pending/" "GET" none]) := by
    simp only [adminApprove, hMut]
    rw [if_neg hDate, hpend]
    rfl
  have hrej : adminReject env requestId s =
      ({ s with dom := { s.dom with adminPendingTbody := renderPending pend, message := "Request rejected.", messageClass := "success" } },
       mkCall s.token ("/requests/" ++ toString requestId ++ "/reject") "POST" none ::
         [mkCall s.token "/requests/pending/" "GET" none]) := by
    simp only [adminReject, hMut]
    rw [hpend]
    rfl
  have hadd : addEquipment env nm cat qty s =
      ({ s with dom := { s.dom with adminInventoryTbody := renderInventory items, message := "Equipment added.", messageClass := "success" } },
       mkCall s.token "/equipment/" "POST" (some (Json.obj [("name", Json.str nm), ("category", Json.str cat), ("condition", Json.str "New"), ("total_quantity", Json.num qty)])) ::
         [mkCall s.token "/equipment/" "GET" none]) := by
    simp only [addEquipment, hMut]
    rw [hinv]
    rfl
  have hdel : adminDeleteItem env equipmentId true s =
      ({ s with dom := { s.dom with adminInventoryTbody := renderInventory items, message := "Equipment deleted.", messageClass := "success" } },
       mkCall s.token ("/equipment/" ++ toString equipmentId) "DELETE" none ::
         [mkCall s.token "/equipment/" "GET" none]) := by
    simp only [adminDeleteItem, hMut]
    rw [hinv]
    rfl
  have hcomp : adminCompleteRepair env repairId s =
      ({ s with dom := { s.dom with overdueTbody := renderOverdue ovd, repairsTbody := renderRepairs reps, analyticsTbody := renderAnalytics ana, message := "Repair marked as complete.", messageClass := "success" } },
       mkCall s.token ("/repairs/" ++ toString repairId ++ "/complete") "POST" none ::
         [mkCall s.token "/requests/overdue/" "GET" none,
          mkCall s.token "/repairs/" "GET" none,
          mkCall s.token "/analytics/usage" "GET" none]) := by
    simp only [adminCompleteRepair, hMut]
    rw [hrep]
    rfl
  have hchk2 : checkOverdue env s =
      ({ s with dom := { s.dom with overdueTbody := renderOverdue ovd, repairsTbody := renderRepairs reps, analyticsTbody := renderAnalytics ana, message := toString chk.length ++ " item(s) marked as overdue.", messageClass := "success" } },
       mkCall s.token "/requests/check-overdue/" "POST" none ::
         [mkCall s.token "/requests/overdue/" "GET" none,
          mkCall s.token "/repairs/" "GET" none,
          mkCall s.token "/analytics/usage" "GET" none]) := by
    simp only [checkOverdue, hChk]
    rw [hrep]
    rfl
  refine ⟨⟨?_, ?_, ?_, ?_, ?_, ?_, ?_, ?_, ?_, ?_, ?_, ?_, ?_, ?_⟩, ?_, ?_, ?_, ?_, ?_,
    ?_, ?_, ?_, ?_, ?_, ?_, ?_, ?_, ?_, ?_, ?_, ?_, ?_, ?_, ?_, ?_, ?_, ?_, ?_, ?_⟩
  · rw [hload s]
  · rw [hload s, hload t]
  · rw [hload2 s]
  · rw [hload2 s, hload2 t]
  · rw [hpend s]
  · rw [hpend s, hpend t]
  · rw [hinv s]
  · rw [hinv s, hinv t]
  · rw [hrep s]
  · rw [hrep s]
  · rw [hrep s]
  · rw [hrep s, hrep t]
  · rw [hrep s, hrep t]
  · rw [hrep s, hrep t]
  · rw [hreqI]
    rfl
  · rw [hreqI]
  · rw [hreqI]
  · rw [hret]
    rfl
  · rw [hret]
  · rw [hret]
  · rw [hdam]
    rfl
  · rw [hdam]
  · rw [hdam]
  · rw [happ]
    rfl
  · rw [happ]
  · rw [hrej]
    rfl
  · rw [hrej]
  · rw [hadd]
    rfl
  · rw [hadd]
  · rw [hdel]
    rfl
  · rw [hdel]
  · rw [hcomp]
    rfl
  · rw [hcomp]
  · rw [hcomp]
  · rw [hcomp]
  · rw [hchk2]
    rfl
  · rw [hchk2]
  · rw [hchk2]
  · rw [hchk2]

/-- C9 witness: at a concrete environment satisfying every hypothesis, the
equipment re-render agrees across two documents with different stale rows,
and a concrete successful request issues exactly the mutation plus one
re-fetch of each owning list. -/
theorem c9_rerender_idempotent_witness :
    (loadStudentEquipment wEnv wState).1.dom.equipTbody = renderEquipmentList [] ∧
    (loadStudentEquipment wEnv wState).1.dom.equipTbody =
      (loadStudentEquipment wEnv wStateB).1.dom.equipTbody ∧
    (requestItem wEnv 7 { year := 2025, month := 1, day := 29 } wState).2.map
        (fun c => (c.endpoint, c.method)) =
      [("/requests/", "POST"), ("/equipment/", "GET"), ("/requests/my/", "GET")] :=
  let h := c9_rerender_idempotent wEnv wState wStateB [] [] [] [] [] [] [] 7 3 9 2
    { year := 2025, month := 1, day := 29 } "broken" "Laptop" "Electronics"
    rfl rfl rfl rfl rfl rfl rfl (fun e => rfl) (by decide) (by decide)
  ⟨h.1.1, h.1.2.1, h.2.1⟩

/-- C10: in every rendered equipment row the Request button carries the
`disabled` attribute exactly when the item's available quantity is at most 0
or its status differs from `available`, and the empty attribute otherwise. -/
theorem c10_request_button_disabled (item : Equipment) :
    (requestButtonDisabledAttr item = "disabled" ↔
      (item.available_quantity ≤ 0 ∨ item.status ≠ "available")) ∧
    (requestButtonDisabledAttr item = "" ↔
      ¬(item.available_quantity ≤ 0 ∨ item.status ≠ "available")) := by
  unfold requestButtonDisabledAttr
  split
  case isTrue h =>
    simp only [Bool.or_eq_true, decide_eq_true_eq, bne_iff_ne] at h
    constructor
    · exact ⟨fun _ => h, fun _ => rfl⟩
    · constructor
      · intro he
        exact absurd he (by decide)
      · intro hn
        exact absurd h hn
  case isFalse h =>
    simp only [Bool.or_eq_true, decide_eq_true_eq, bne_iff_ne] at h
    constructor
    · constructor
      · intro he
        exact absurd he (by decide)
      · intro hor
        exact absurd hor h
    · exact ⟨fun _ => h, fun _ => rfl⟩

end EquipPortal
